import Mathlib

/-!
# Verification of the budgetapp budget engine

Shallow embedding of the budget calculation engine of `budgetapp`
(the HTTP endpoint in `server/index.js` and the client-side engine).
JavaScript doubles are modelled as rationals (`ℚ`); where the source
checks `Number.isFinite`, a JavaScript number is modelled explicitly by
`JVal`, which also carries the non-finite values `NaN`, `Infinity` and
`-Infinity`.  String fields that are pure display metadata (`id`,
`name`, `loanName`, `tableLabel`) are omitted from the embedding: no
computation in the source reads them.
-/

namespace BudgetApp

/-- A JavaScript number: either a finite value (modelled as a rational)
or one of the non-finite doubles `NaN`, `Infinity`, `-Infinity`. -/
inductive JVal where
  | num (q : ℚ)
  | nan
  | inf
  | ninf
deriving DecidableEq

/-- `Number.isFinite` on a `JVal`. -/
def JVal.isFinite : JVal → Bool
  | .num _ => true
  | _ => false

/-- JavaScript division of two finite numbers (`x / y`): finite quotient
when `y ≠ 0`, otherwise `Infinity`, `-Infinity` or `NaN` according to the
sign of `x`. -/
def jdiv (x y : ℚ) : JVal :=
  if y = 0 then
    if x = 0 then JVal.nan
    else if 0 < x then JVal.inf
    else JVal.ninf
  else JVal.num (x / y)

/-- A raw JSON field value as seen by the server before numeric parsing:
absent (`undefined`), `null`, the empty string, a non-empty string whose
`Number(·)` conversion is `v`, or a number `v`. -/
inductive RawValue where
  | undef
  | null
  | emptyStr
  | str (v : JVal)
  | num (v : JVal)
deriving DecidableEq

/-- `parseNumber` from `server/index.js` (lines 21-27): `undefined`,
`null` and `""` parse to `undefined`; otherwise `Number(value)` is taken
and kept only when finite.  `undefined` is modelled as `none`. -/
def parseNumber : RawValue → Option ℚ
  | .undef => none
  | .null => none
  | .emptyStr => none
  | .str v | .num v =>
    match v with
    | .num q => some q
    | _ => none

/-- A raw loan entry of the `/api/calculate` request body. -/
structure RawLoan where
  loanAmount : RawValue
  annualInterestRate : RawValue
  amortizationPercent : RawValue
  rateType : Option String
deriving DecidableEq

/-- The full `/api/calculate` request body (numeric fields raw;
`loans := none` models a body whose `loans` is not an array). -/
structure CalcRequest where
  income : RawValue
  loans : Option (List RawLoan)
  loanAmount : RawValue
  annualInterestRate : RawValue
  amortizationPercent : RawValue
deriving DecidableEq

/-- A loan entry after the server's per-entry parsing and validation. -/
structure ParsedLoan where
  loanAmount : ℚ
  annualInterestRate : ℚ
  amortizationPercent : ℚ
  rateType : String
deriving DecidableEq

/-- Per-entry parsing of `/api/calculate` (lines 528-555): each numeric
field goes through `parseNumber`, `amortizationPercent` defaults to `2`
when it parses to `undefined`, and the entry is dropped (`none`) when
the amount is missing or `≤ 0`, the rate is missing or `< 0`, or the
amortization percent is `< 0`.  `rateType` is `"fixed"` only when the
raw field is exactly `"fixed"`, else `"variable"`. -/
def parseLoanEntry (loan : RawLoan) : Option ParsedLoan :=
  match parseNumber loan.loanAmount, parseNumber loan.annualInterestRate with
  | some a, some r =>
    let am := (parseNumber loan.amortizationPercent).getD 2
    if a ≤ 0 ∨ r < 0 ∨ am < 0 then none
    else some { loanAmount := a
                annualInterestRate := r
                amortizationPercent := am
                rateType := if loan.rateType = some "fixed" then "fixed" else "variable" }
  | _, _ => none

/-- A computed per-loan row of the response (`calculateLoanRow`,
`server/index.js` lines 29-54, display metadata omitted). -/
structure LoanRow where
  loanAmount : ℚ
  annualInterestRate : ℚ
  amortizationPercent : ℚ
  monthlyInterest : ℚ
  monthlyAmortization : ℚ
  totalMonthlyCost : ℚ
  rateType : String
deriving DecidableEq

/-- `calculateLoanRow` (lines 29-54): monthlyRate = annual/100/12,
monthlyInterest = amount × monthlyRate, monthlyAmortization =
amount × (percent/100) / 12, totalMonthlyCost = their sum. -/
def calculateLoanRow (loan : ParsedLoan) : LoanRow :=
  let monthlyRate := loan.annualInterestRate / 100 / 12
  let monthlyInterest := loan.loanAmount * monthlyRate
  let monthlyAmortization := loan.loanAmount * (loan.amortizationPercent / 100) / 12
  { loanAmount := loan.loanAmount
    annualInterestRate := loan.annualInterestRate
    amortizationPercent := loan.amortizationPercent
    monthlyInterest := monthlyInterest
    monthlyAmortization := monthlyAmortization
    totalMonthlyCost := monthlyInterest + monthlyAmortization
    rateType := loan.rateType }

/-- Aggregate totals of the response (`totals` accumulator, lines 589-603). -/
structure Totals where
  loanAmount : ℚ
  monthlyInterest : ℚ
  monthlyAmortization : ℚ
  totalMonthlyCost : ℚ
deriving DecidableEq

/-- The `reduce` that builds `totals` (lines 589-603). -/
def sumTotals (rows : List LoanRow) : Totals :=
  rows.foldl
    (fun acc loan =>
      { loanAmount := acc.loanAmount + loan.loanAmount
        monthlyInterest := acc.monthlyInterest + loan.monthlyInterest
        monthlyAmortization := acc.monthlyAmortization + loan.monthlyAmortization
        totalMonthlyCost := acc.totalMonthlyCost + loan.totalMonthlyCost })
    ⟨0, 0, 0, 0⟩

/-- The success payload of `/api/calculate` (lines 605-615):
`incomeShare` is attached only when `income` parsed and is `> 0`. -/
structure CalcPayload where
  income : Option ℚ
  loans : List LoanRow
  totals : Totals
  incomeShare : Option ℚ
deriving DecidableEq

/-- Building the success payload (lines 588-615). -/
def buildPayload (income : Option ℚ) (parsedLoans : List ParsedLoan) : CalcPayload :=
  let loanResults := parsedLoans.map calculateLoanRow
  let totals := sumTotals loanResults
  { income := income
    loans := loanResults
    totals := totals
    incomeShare :=
      match income with
      | some q => if 0 < q then some (totals.totalMonthlyCost / q) else none
      | none => none }

/-- The legacy single-loan fallback (lines 557-579): top-level
`loanAmount` / `annualInterestRate` / `amortizationPercent` (defaulting
to 2), accepted when amount parses and is `> 0`, rate parses and is
`≥ 0`, and amortization is `≥ 0`; always `rateType = "variable"`. -/
def fallbackLoanOpt (req : CalcRequest) : Option ParsedLoan :=
  match parseNumber req.loanAmount, parseNumber req.annualInterestRate with
  | some fa, some fi =>
    let fam := (parseNumber req.amortizationPercent).getD 2
    if 0 < fa ∧ 0 ≤ fi ∧ 0 ≤ fam then
      some { loanAmount := fa
             annualInterestRate := fi
             amortizationPercent := fam
             rateType := "variable" }
    else none
  | _, _ => none

/-- The `/api/calculate` handler (lines 516-616).  An empty (or
non-array) `loans` body is rejected immediately; otherwise the entries
are parsed and filtered; if none survives, the legacy fallback loan is
tried; if that also fails, a 400 error is returned; otherwise the
payload is computed from the surviving loans. -/
def apiCalculate (req : CalcRequest) : Except String CalcPayload :=
  if (req.loans.getD []).isEmpty then
    Except.error "Minst ett lån måste anges för att göra en kalkyl."
  else if ((req.loans.getD []).filterMap parseLoanEntry).isEmpty then
    match fallbackLoanOpt req with
    | some fb => Except.ok (buildPayload (parseNumber req.income) [fb])
    | none =>
      Except.error "Minst ett lån måste anges med belopp, ränta och amortering för att göra en kalkyl."
  else
    Except.ok (buildPayload (parseNumber req.income) ((req.loans.getD []).filterMap parseLoanEntry))

/-- The C1 request: one loan of 2,500,000 at 4.2 % annual interest and
2 % amortization, income 35,000. -/
def reqC1 : CalcRequest :=
  { income := .num (.num 35000)
    loans := some [{ loanAmount := .num (.num 2500000)
                     annualInterestRate := .num (.num (21/5))
                     amortizationPercent := .num (.num 2)
                     rateType := none }]
    loanAmount := .undef
    annualInterestRate := .undef
    amortizationPercent := .undef }

/-- C1: for a single loan with principal 2,500,000, annual interest rate
4.2 and amortization percent 2, `/api/calculate` yields
monthlyInterest = 8750, monthlyAmortization = 12500/3
(= 4166.666666666667 as a double), totalMonthlyCost = 38750/3
(= 12916.666666666666) and, with income 35000, incomeShare = 31/84
(= 0.3690476190476191). -/
theorem c1_calculate_worked_example :
    apiCalculate reqC1 =
      Except.ok
        { income := some 35000
          loans := [{ loanAmount := 2500000
                      annualInterestRate := 21/5
                      amortizationPercent := 2
                      monthlyInterest := 8750
                      monthlyAmortization := 12500/3
                      totalMonthlyCost := 38750/3
                      rateType := "variable" }]
          totals := { loanAmount := 2500000
                      monthlyInterest := 8750
                      monthlyAmortization := 12500/3
                      totalMonthlyCost := 38750/3 }
          incomeShare := some (31/84) } := by
  norm_num [apiCalculate, reqC1, parseNumber, parseLoanEntry, buildPayload, calculateLoanRow,
    sumTotals, fallbackLoanOpt, List.filterMap, List.isEmpty, List.foldl, List.map]
  decide

/-! ## Amortization requirement resolver (client engine, lines 629-641) -/

/-- `amortizationRequirement` (lines 629-641): `null` when
`hasPropertyValue` is false (`propertyValueNumber ≤ 0`, line 303), when
`activeLoanPrincipal` is falsy (`= 0` for a finite number), or when
`propertyValueNumber ≤ 0`; otherwise the pair `(percent, ratio)` with
`ratio = principal / propertyValue` and percent 2 above ratio 0.70,
1 above 0.50, else 0 (strict comparisons). -/
def amortizationRequirement (activeLoanPrincipal propertyValueNumber : ℚ) : Option (ℚ × ℚ) :=
  if ¬ (0 < propertyValueNumber) ∨ activeLoanPrincipal = 0 ∨ propertyValueNumber ≤ 0 then
    none
  else
    let ratio := activeLoanPrincipal / propertyValueNumber
    let percent : ℚ := if 7/10 < ratio then 2 else if 1/2 < ratio then 1 else 0
    some (percent, ratio)

/-- C2: with a non-negative total active principal (which the engine
guarantees, see `manualLoanTotals_totalAmount_nonneg`), the resolver is
absent whenever property value `≤ 0` or principal `≤ 0`; otherwise it
returns percent 2 when ratio `> 0.70`, percent 1 when `0.50 < ratio ≤
0.70`, percent 0 when `ratio ≤ 0.50`; in particular ratio exactly 0.70
gives 1 and exactly 0.50 gives 0 (strict boundaries). -/
theorem c2_amortization_requirement (p pv : ℚ) (hp : 0 ≤ p) :
    ((pv ≤ 0 ∨ p ≤ 0) → amortizationRequirement p pv = none)
    ∧ (0 < pv → 0 < p → 7/10 < p/pv → amortizationRequirement p pv = some (2, p/pv))
    ∧ (0 < pv → 0 < p → 1/2 < p/pv → p/pv ≤ 7/10 →
        amortizationRequirement p pv = some (1, p/pv))
    ∧ (0 < pv → 0 < p → p/pv ≤ 1/2 → amortizationRequirement p pv = some (0, p/pv))
    ∧ (0 < pv → 0 < p → p/pv = 7/10 → amortizationRequirement p pv = some (1, 7/10))
    ∧ (0 < pv → 0 < p → p/pv = 1/2 → amortizationRequirement p pv = some (0, 1/2)) := by
  refine ⟨?_, ?_, ?_, ?_, ?_, ?_⟩
  · rintro (hpv | hple)
    · simp [amortizationRequirement, not_lt.mpr hpv, hpv]
    · have hp0 : p = 0 := le_antisymm hple hp
      simp [amortizationRequirement, hp0]
  · intro hpv hp0 hr
    rw [amortizationRequirement, if_neg (by push_neg; exact ⟨hpv, ne_of_gt hp0, hpv⟩)]
    simp only [if_pos hr]
  · intro hpv hp0 hr1 hr2
    rw [amortizationRequirement, if_neg (by push_neg; exact ⟨hpv, ne_of_gt hp0, hpv⟩)]
    simp only [if_neg (not_lt.mpr hr2), if_pos hr1]
  · intro hpv hp0 hr
    rw [amortizationRequirement, if_neg (by push_neg; exact ⟨hpv, ne_of_gt hp0, hpv⟩)]
    have h7 : ¬ (7/10 : ℚ) < p/pv := not_lt.mpr (le_trans hr (by norm_num))
    simp only [if_neg h7, if_neg (not_lt.mpr hr)]
  · intro hpv hp0 hr
    rw [amortizationRequirement, if_neg (by push_neg; exact ⟨hpv, ne_of_gt hp0, hpv⟩)]
    rw [hr]
    norm_num
  · intro hpv hp0 hr
    rw [amortizationRequirement, if_neg (by push_neg; exact ⟨hpv, ne_of_gt hp0, hpv⟩)]
    rw [hr]
    norm_num

/-- Witness for C2 at principal 3, property value 4 (ratio 0.75 ⇒
percent 2), and at ratio exactly 0.70 (7/10) ⇒ percent 1. -/
theorem c2_witness :
    amortizationRequirement 3 4 = some (2, 3/4)
    ∧ amortizationRequirement (7/10) 1 = some (1, 7/10) :=
  ⟨by
    have h := (c2_amortization_requirement 3 4 (by norm_num)).2.1
      (by norm_num) (by norm_num) (by norm_num)
    simpa using h,
   by
    have h := (c2_amortization_requirement (7/10) 1 (by norm_num)).2.2.2.2.1
      (by norm_num) (by norm_num) (by norm_num)
    simpa using h⟩

/-! ## Auto-derived future amortization percent (client engine, lines 680-692) -/

/-- `derivedFuturePercent` (lines 680-692).  In auto mode (empty
`futureAmortizationPercent` input) the current weighted percent `c` is
stepped down: `max (c - 1) 1` when `c ≥ 1`, else `max c 0`; a
non-finite weighted percent yields `null`.  Otherwise the typed value is
used when finite, else `null`. -/
def derivedFuturePercent (usingAutoFuturePercent : Bool) (typedValue : JVal)
    (amortizationPercentNumber : JVal) : Option ℚ :=
  if usingAutoFuturePercent then
    match amortizationPercentNumber with
    | JVal.num c => some (if 1 ≤ c then max (c - 1) 1 else max c 0)
    | _ => none
  else
    match typedValue with
    | JVal.num t => some t
    | _ => none

/-- C3: in auto mode the derived target is `max (c − 1) 1` when
`c ≥ 1` and `max c 0` when `c < 1`; it is never negative; and
`c = 2 ⇒ 1`, `c = 1.5 ⇒ 1`, `c = 0.8 ⇒ 0.8`, `c = 0.6 ⇒ 0.6`. -/
theorem c3_future_percent_auto (tv : JVal) (c : ℚ) :
    (1 ≤ c → derivedFuturePercent true tv (JVal.num c) = some (max (c - 1) 1))
    ∧ (c < 1 → derivedFuturePercent true tv (JVal.num c) = some (max c 0))
    ∧ (∀ t, derivedFuturePercent true tv (JVal.num c) = some t → 0 ≤ t)
    ∧ derivedFuturePercent true tv (JVal.num 2) = some 1
    ∧ derivedFuturePercent true tv (JVal.num (3/2)) = some 1
    ∧ derivedFuturePercent true tv (JVal.num (4/5)) = some (4/5)
    ∧ derivedFuturePercent true tv (JVal.num (3/5)) = some (3/5) := by
  refine ⟨?_, ?_, ?_, ?_, ?_, ?_, ?_⟩
  · intro hc
    simp [derivedFuturePercent, if_pos hc]
  · intro hc
    simp [derivedFuturePercent, if_neg (not_le.mpr hc)]
  · intro t ht
    simp only [derivedFuturePercent, if_pos, Option.some.injEq] at ht
    subst ht
    split
    · exact le_trans zero_le_one (le_max_right _ _)
    · exact le_max_right _ _
  · have h2 : (1:ℚ) ≤ 2 := by norm_num
    simp only [derivedFuturePercent, if_pos h2, if_true]
    norm_num
  · have h2 : (1:ℚ) ≤ 3/2 := by norm_num
    simp only [derivedFuturePercent, if_pos h2, if_true]
    norm_num [max_eq_right]
  · have h2 : ¬ (1:ℚ) ≤ 4/5 := by norm_num
    simp only [derivedFuturePercent, if_neg h2, if_true]
    norm_num [max_eq_left]
  · have h2 : ¬ (1:ℚ) ≤ 3/5 := by norm_num
    simp only [derivedFuturePercent, if_neg h2, if_true]
    norm_num [max_eq_left]

/-- Witness for C3 at `c = 1.5`: the derived target is
`max (1.5 − 1) 1 = 1`, and it is non-negative. -/
theorem c3_witness :
    derivedFuturePercent true JVal.nan (JVal.num (3/2)) = some (max (3/2 - 1) 1)
    ∧ ∀ t, derivedFuturePercent true JVal.nan (JVal.num (3/2)) = some t → 0 ≤ t :=
  ⟨(c3_future_percent_auto JVal.nan (3/2)).1 (by norm_num),
   (c3_future_percent_auto JVal.nan (3/2)).2.2.1⟩

/-! ## Interest deduction (client engine lines 225-234; the server has a
textually identical copy at `server/index.js` lines 1739-1748) -/

/-- `calculateInterestDeductionMonthly` (lines 225-234): 0 for a
non-finite or non-positive monthly interest; otherwise the yearly
interest is taxed at 30 % up to 100000 and 21 % above, and the yearly
deduction is returned per month. -/
def calculateInterestDeductionMonthly (monthlyInterest : JVal) : ℚ :=
  match monthlyInterest with
  | JVal.num m =>
    if m ≤ 0 then 0
    else
      let yearlyInterest := m * 12
      let base := min yearlyInterest 100000
      let excess := max (yearlyInterest - 100000) 0
      let deductionYearly := base * (3/10) + excess * (21/100)
      deductionYearly / 12
  | _ => 0

/-- C4: the deduction is 0 for non-finite, zero or negative monthly
interest; for positive monthly interest it is
`(min (m·12) 100000 · 0.30 + max (m·12 − 100000) 0 · 0.21) / 12`; in
particular yearly interest 120000 (monthly 10000) gives 2850. -/
theorem c4_interest_deduction (v : JVal) :
    (v.isFinite = false → calculateInterestDeductionMonthly v = 0)
    ∧ (∀ m : ℚ, v = JVal.num m → m ≤ 0 → calculateInterestDeductionMonthly v = 0)
    ∧ (∀ m : ℚ, v = JVal.num m → 0 < m →
        calculateInterestDeductionMonthly v =
          (min (m * 12) 100000 * (3/10) + max (m * 12 - 100000) 0 * (21/100)) / 12)
    ∧ calculateInterestDeductionMonthly (JVal.num 10000) = 2850 := by
  refine ⟨?_, ?_, ?_, ?_⟩
  · intro hv
    cases v with
    | num q => simp [JVal.isFinite] at hv
    | nan => rfl
    | inf => rfl
    | ninf => rfl
  · intro m hm hle
    subst hm
    simp [calculateInterestDeductionMonthly, if_pos hle]
  · intro m hm hpos
    subst hm
    simp [calculateInterestDeductionMonthly, if_neg (not_le.mpr hpos)]
  · have h : ¬ (10000:ℚ) ≤ 0 := by norm_num
    simp only [calculateInterestDeductionMonthly, if_neg h]
    norm_num [min_eq_right, max_eq_left]

/-- Witness for C4 at the non-finite input `NaN` and the negative input
`-5`: both give deduction 0. -/
theorem c4_witness :
    calculateInterestDeductionMonthly JVal.nan = 0
    ∧ calculateInterestDeductionMonthly (JVal.num (-5)) = 0 :=
  ⟨(c4_interest_deduction JVal.nan).1 rfl,
   (c4_interest_deduction (JVal.num (-5))).2.1 (-5) rfl (by norm_num)⟩

/-! ## Future scenario (client engine, lines 694-716) -/

/-- `netMonthlyIncome` (lines 553-554): the aggregated net income when
positive, else `null`. -/
def netMonthlyIncome (totalNet : ℚ) : Option ℚ :=
  if 0 < totalNet then some totalNet else none

/-- `effectiveIncome` / `incomeForPlan` (lines 601-605): net income plus
the interest-deduction bonus when the tax adjustment is enabled, `null`
when the net income is unknown. -/
def effectiveIncome (net : Option ℚ) (taxAdjustmentEnabled : Bool)
    (interestDeductionMonthly : ℚ) : Option ℚ :=
  match net with
  | some n => some (n + if taxAdjustmentEnabled then interestDeductionMonthly else 0)
  | none => none

/-- The record built by `futureScenario` (lines 708-715).  `futureShare`
is a `JVal` because the source divides by `incomeForScenario` without a
zero guard. -/
structure FutureScenario where
  percentValue : ℚ
  futureMonthlyAmortization : ℚ
  futureTotalMonthlyCost : ℚ
  futureCombinedPlan : ℚ
  futureShare : JVal
  futureLeftover : ℚ
deriving DecidableEq

/-- `futureScenario` (lines 694-716): `null` without result totals or
without a non-negative derived percent; otherwise the loan cost is
recomputed at the derived percent (interest unchanged),
`incomeForScenario = incomeForPlan ?? netMonthlyIncome ?? 0`, and
`futureShare = futureCombinedPlan / incomeForScenario` (JavaScript
division, line 706). -/
def futureScenario (resultTotals : Option Totals) (derived : Option ℚ)
    (extraMonthlyTotal savingsMonthlyTotal : ℚ)
    (incomeForPlan netIncome : Option ℚ) : Option FutureScenario :=
  match resultTotals with
  | none => none
  | some totals =>
    match derived with
    | none => none
    | some d =>
      if d < 0 then none
      else
        let futureMonthlyAmortization := totals.loanAmount * (d / 100) / 12
        let futureTotalMonthlyCost := totals.monthlyInterest + futureMonthlyAmortization
        let futureCombinedPlan :=
          futureTotalMonthlyCost + extraMonthlyTotal + savingsMonthlyTotal
        let incomeForScenario := incomeForPlan.getD (netIncome.getD 0)
        some { percentValue := d
               futureMonthlyAmortization := futureMonthlyAmortization
               futureTotalMonthlyCost := futureTotalMonthlyCost
               futureCombinedPlan := futureCombinedPlan
               futureShare := jdiv futureCombinedPlan incomeForScenario
               futureLeftover := incomeForScenario - futureCombinedPlan }

/-- C5 fails on the code: with no known income (net income 0 ⇒ `null`),
`incomeForScenario` falls back to `0` and the scenario is still
produced, with `futureShare = futureCombinedPlan / 0 = Infinity` — a
division-by-zero result, not an absent field.  Here: loan total
1,200,000 at monthly interest 3500, derived percent 1, no extra costs
or savings. -/
theorem c5_future_scenario_share_is_infinity :
    netMonthlyIncome 0 = none
    ∧ futureScenario (some ⟨1200000, 3500, 2000, 5500⟩) (some 1) 0 0
        (effectiveIncome (netMonthlyIncome 0) false 0) (netMonthlyIncome 0) =
      some { percentValue := 1
             futureMonthlyAmortization := 1000
             futureTotalMonthlyCost := 4500
             futureCombinedPlan := 4500
             futureShare := JVal.inf
             futureLeftover := -4500 } := by
  constructor
  · simp [netMonthlyIncome]
  · have h0 : netMonthlyIncome 0 = none := by simp [netMonthlyIncome]
    rw [h0]
    norm_num [futureScenario, effectiveIncome, jdiv]

/-! ## Client-side loan aggregation (lines 325-461) -/

/-- A sanitized loan (`sanitizedLoans`, lines 325-336): the numeric
fields of a loan form converted by `Number(·)` (finite values; entries
with non-finite fields never pass the `activeLoans` filter, which is
where all consumers read them). -/
structure SanLoan where
  amountNumber : ℚ
  interestNumber : ℚ
  amortizationNumber : ℚ
  rateType : String
deriving DecidableEq

/-- The `activeLoans` filter (lines 338-350): finite amount `> 0`,
finite rate `≥ 0`, finite amortization `≥ 0`. -/
def isActiveLoan (l : SanLoan) : Bool :=
  decide (0 < l.amountNumber) && decide (0 ≤ l.interestNumber)
    && decide (0 ≤ l.amortizationNumber)

/-- `activeLoans` (lines 338-350). -/
def activeLoans (loans : List SanLoan) : List SanLoan :=
  loans.filter isActiveLoan

/-- The accumulator of `manualLoanTotals` (lines 352-367). -/
structure ManualTotals where
  totalAmount : ℚ
  monthlyInterest : ℚ
  monthlyAmortization : ℚ
deriving DecidableEq

/-- `manualLoanTotals` (lines 352-367): loans with amount `≤ 0` are
skipped; otherwise amount, amount·rate/100/12 and amount·amort/100/12
are accumulated (the `Number.isFinite` fallbacks to 0 are vacuous on
`ℚ`). -/
def manualLoanTotals (loans : List SanLoan) : ManualTotals :=
  loans.foldl
    (fun acc loan =>
      if loan.amountNumber ≤ 0 then acc
      else
        { totalAmount := acc.totalAmount + loan.amountNumber
          monthlyInterest :=
            acc.monthlyInterest + loan.amountNumber * loan.interestNumber / 100 / 12
          monthlyAmortization :=
            acc.monthlyAmortization + loan.amountNumber * loan.amortizationNumber / 100 / 12 })
    ⟨0, 0, 0⟩

/-- The accumulator of `loanTypeBreakdown` (lines 385-405). -/
structure TypeBreakdown where
  variableAmount : ℚ
  variableMonthlyInterest : ℚ
  fixedAmount : ℚ
  fixedMonthlyInterest : ℚ
deriving DecidableEq

/-- `loanTypeBreakdown` (lines 385-405): per loan, monthlyInterest =
amount·rate/100/12 when amount `> 0` else 0, accumulated into the
`fixed` bucket when `rateType = "fixed"`, else the `variable` bucket. -/
def loanTypeBreakdown (loans : List SanLoan) : TypeBreakdown :=
  loans.foldl
    (fun acc loan =>
      let monthlyInterest :=
        if 0 < loan.amountNumber then loan.amountNumber * loan.interestNumber / 100 / 12 else 0
      if loan.rateType = "fixed" then
        { acc with
            fixedAmount := acc.fixedAmount + loan.amountNumber
            fixedMonthlyInterest := acc.fixedMonthlyInterest + monthlyInterest }
      else
        { acc with
            variableAmount := acc.variableAmount + loan.amountNumber
            variableMonthlyInterest := acc.variableMonthlyInterest + monthlyInterest })
    ⟨0, 0, 0, 0⟩

/-- `computeVariableInterest` (lines 425-435): fixed-rate loans and
loans with amount `≤ 0` are skipped; each remaining loan contributes
`amount · max (rate + diff) 0 / 100 / 12` (the `|| 0` on the rate is
vacuous on `ℚ`). -/
def computeVariableInterest (loans : List SanLoan) (diff : ℚ) : ℚ :=
  loans.foldl
    (fun sum loan =>
      if loan.rateType = "fixed" then sum
      else if loan.amountNumber ≤ 0 then sum
      else sum + loan.amountNumber * max (loan.interestNumber + diff) 0 / 100 / 12)
    0

/-- The baseline monthly interest of the variable-rate loans with
positive amount, written as the sum the spec describes. -/
def variableBaselineSum : List SanLoan → ℚ
  | [] => 0
  | l :: rest =>
    (if l.rateType ≠ "fixed" ∧ 0 < l.amountNumber
      then l.amountNumber * l.interestNumber / 100 / 12 else 0)
    + variableBaselineSum rest

/-- The baseline monthly interest of the fixed-rate loans with positive
amount: this term carries no rate shock. -/
def fixedBaselineSum : List SanLoan → ℚ
  | [] => 0
  | l :: rest =>
    (if l.rateType = "fixed" ∧ 0 < l.amountNumber
      then l.amountNumber * l.interestNumber / 100 / 12 else 0)
    + fixedBaselineSum rest

/-- Per the spec of the rate-sensitivity analysis: each variable-rate
loan with positive amount contributes
`amount · max (rate + diff) 0 / 100 / 12`. -/
def variableAdjustedSum (diff : ℚ) : List SanLoan → ℚ
  | [] => 0
  | l :: rest =>
    (if l.rateType ≠ "fixed" ∧ 0 < l.amountNumber
      then l.amountNumber * max (l.interestNumber + diff) 0 / 100 / 12 else 0)
    + variableAdjustedSum diff rest

/-- One leg (`increase` or `decrease`) of `rateScenarioSummary`
(lines 437-442). -/
structure ScenarioLeg where
  monthlyInterestTotal : ℚ
  total : ℚ
  diff : ℚ
deriving DecidableEq

/-- The record returned by `rateScenarioSummary` (lines 447-454). -/
structure RateScenario where
  delta : ℚ
  baseTotal : ℚ
  increase : ScenarioLeg
  decrease : ScenarioLeg
  variableAmount : ℚ
  fixedAmount : ℚ
deriving DecidableEq

/-- `rateScenarioSummary` (lines 411-461): `null` when there are no
active loans or no variable-rate amount (`delta` finiteness is vacuous
on `ℚ`).  The base total is the server totals when present, else the
manual interest + amortization (lines 407-409); the fixed baseline is
the manual monthly interest minus the variable breakdown interest, and
each leg recomputes only the variable interest at `±delta`. -/
def rateScenarioSummary (loans : List SanLoan) (delta : ℚ)
    (resultTotals : Option Totals) : Option RateScenario :=
  if loans.isEmpty ∨ (loanTypeBreakdown loans).variableAmount ≤ 0 then none
  else
    let manual := manualLoanTotals loans
    let baseLoanMonthlyTotal :=
      (resultTotals.map Totals.totalMonthlyCost).getD
        (manual.monthlyInterest + manual.monthlyAmortization)
    let baseVariableInterest := (loanTypeBreakdown loans).variableMonthlyInterest
    let baseFixedInterest := manual.monthlyInterest - baseVariableInterest
    let monthlyAmortizationTotal := manual.monthlyAmortization
    let buildLeg := fun (variableInterestTotal : ℚ) =>
      let monthlyInterestTotal := baseFixedInterest + variableInterestTotal
      let total := monthlyInterestTotal + monthlyAmortizationTotal
      ScenarioLeg.mk monthlyInterestTotal total (total - baseLoanMonthlyTotal)
    some { delta := delta
           baseTotal := baseLoanMonthlyTotal
           increase := buildLeg (computeVariableInterest loans delta)
           decrease := buildLeg (computeVariableInterest loans (-delta))
           variableAmount := (loanTypeBreakdown loans).variableAmount
           fixedAmount := (loanTypeBreakdown loans).fixedAmount }

/-- The skipped-entry sum of amounts inside `manualLoanTotals`. -/
def amountSum : List SanLoan → ℚ
  | [] => 0
  | l :: rest => (if l.amountNumber ≤ 0 then 0 else l.amountNumber) + amountSum rest

/-- The monthly-interest sum inside `manualLoanTotals`. -/
def interestSum : List SanLoan → ℚ
  | [] => 0
  | l :: rest =>
    (if l.amountNumber ≤ 0 then 0 else l.amountNumber * l.interestNumber / 100 / 12)
    + interestSum rest

/-- The monthly-amortization sum inside `manualLoanTotals`. -/
def amortSum : List SanLoan → ℚ
  | [] => 0
  | l :: rest =>
    (if l.amountNumber ≤ 0 then 0 else l.amountNumber * l.amortizationNumber / 100 / 12)
    + amortSum rest

lemma manualLoanTotals_eq (loans : List SanLoan) :
    manualLoanTotals loans = ⟨amountSum loans, interestSum loans, amortSum loans⟩ := by
  suffices h : ∀ (l : List SanLoan) (acc : ManualTotals),
      l.foldl
        (fun acc loan =>
          if loan.amountNumber ≤ 0 then acc
          else
            { totalAmount := acc.totalAmount + loan.amountNumber
              monthlyInterest :=
                acc.monthlyInterest + loan.amountNumber * loan.interestNumber / 100 / 12
              monthlyAmortization :=
                acc.monthlyAmortization
                  + loan.amountNumber * loan.amortizationNumber / 100 / 12 }) acc
      = ⟨acc.totalAmount + amountSum l, acc.monthlyInterest + interestSum l,
          acc.monthlyAmortization + amortSum l⟩ by
    have := h loans ⟨0, 0, 0⟩
    simpa [manualLoanTotals] using this
  intro l
  induction l with
  | nil =>
    intro acc
    simp [amountSum, interestSum, amortSum]
  | cons x xs ih =>
    intro acc
    rw [List.foldl_cons, ih, amountSum, interestSum, amortSum]
    by_cases h : x.amountNumber ≤ 0
    · simp only [if_pos h, ManualTotals.mk.injEq]
      exact ⟨by ring, by ring, by ring⟩
    · simp only [if_neg h, ManualTotals.mk.injEq]
      exact ⟨by ring, by ring, by ring⟩

lemma manualLoanTotals_totalAmount_nonneg (loans : List SanLoan) :
    0 ≤ (manualLoanTotals loans).totalAmount := by
  rw [manualLoanTotals_eq]
  show 0 ≤ amountSum loans
  induction loans with
  | nil => simp [amountSum]
  | cons x xs ih =>
    rw [amountSum]
    by_cases h : x.amountNumber ≤ 0
    · simpa [if_pos h] using ih
    · have hx : 0 ≤ x.amountNumber := le_of_lt (not_le.mp h)
      rw [if_neg h]
      exact add_nonneg hx ih

lemma loanTypeBreakdown_variableMI (loans : List SanLoan) :
    (loanTypeBreakdown loans).variableMonthlyInterest = variableBaselineSum loans := by
  suffices h : ∀ (l : List SanLoan) (acc : TypeBreakdown),
      (l.foldl
        (fun acc loan =>
          let monthlyInterest :=
            if 0 < loan.amountNumber
              then loan.amountNumber * loan.interestNumber / 100 / 12 else 0
          if loan.rateType = "fixed" then
            { acc with
                fixedAmount := acc.fixedAmount + loan.amountNumber
                fixedMonthlyInterest := acc.fixedMonthlyInterest + monthlyInterest }
          else
            { acc with
                variableAmount := acc.variableAmount + loan.amountNumber
                variableMonthlyInterest :=
                  acc.variableMonthlyInterest + monthlyInterest }) acc).variableMonthlyInterest
      = acc.variableMonthlyInterest + variableBaselineSum l by
    have := h loans ⟨0, 0, 0, 0⟩
    simpa [loanTypeBreakdown] using this
  intro l
  induction l with
  | nil =>
    intro acc
    simp [variableBaselineSum]
  | cons x xs ih =>
    intro acc
    rw [List.foldl_cons, ih, variableBaselineSum]
    by_cases hfix : x.rateType = "fixed"
    · have hcond : ¬ (x.rateType ≠ "fixed" ∧ 0 < x.amountNumber) := fun hc => hc.1 hfix
      simp only [if_pos hfix, if_neg hcond]
      ring
    · by_cases hamt : 0 < x.amountNumber
      · simp only [if_neg hfix, if_pos hamt, if_pos (And.intro hfix hamt)]
        ring
      · have hcond : ¬ (x.rateType ≠ "fixed" ∧ 0 < x.amountNumber) := fun hc => hamt hc.2
        simp only [if_neg hfix, if_neg hamt, if_neg hcond]
        ring

lemma interestSum_split (loans : List SanLoan) :
    interestSum loans = variableBaselineSum loans + fixedBaselineSum loans := by
  induction loans with
  | nil => simp [interestSum, variableBaselineSum, fixedBaselineSum]
  | cons x xs ih =>
    rw [interestSum, variableBaselineSum, fixedBaselineSum, ih]
    by_cases hamt : x.amountNumber ≤ 0
    · have h1 : ¬ (x.rateType ≠ "fixed" ∧ 0 < x.amountNumber) :=
        fun hc => absurd hc.2 (not_lt.mpr hamt)
      have h2 : ¬ (x.rateType = "fixed" ∧ 0 < x.amountNumber) :=
        fun hc => absurd hc.2 (not_lt.mpr hamt)
      simp only [if_pos hamt, if_neg h1, if_neg h2]
      ring
    · have hpos : 0 < x.amountNumber := not_le.mp hamt
      by_cases hfix : x.rateType = "fixed"
      · have h1 : ¬ (x.rateType ≠ "fixed" ∧ 0 < x.amountNumber) := fun hc => hc.1 hfix
        simp only [if_neg hamt, if_neg h1, if_pos (And.intro hfix hpos)]
        ring
      · have h2 : ¬ (x.rateType = "fixed" ∧ 0 < x.amountNumber) := fun hc => hfix hc.1
        simp only [if_neg hamt, if_pos (And.intro hfix hpos), if_neg h2]
        ring

lemma computeVariableInterest_eq (loans : List SanLoan) (diff : ℚ) :
    computeVariableInterest loans diff = variableAdjustedSum diff loans := by
  suffices h : ∀ (l : List SanLoan) (a : ℚ),
      l.foldl
        (fun sum loan =>
          if loan.rateType = "fixed" then sum
          else if loan.amountNumber ≤ 0 then sum
          else sum + loan.amountNumber * max (loan.interestNumber + diff) 0 / 100 / 12) a
      = a + variableAdjustedSum diff l by
    have := h loans 0
    simpa [computeVariableInterest] using this
  intro l
  induction l with
  | nil =>
    intro a
    simp [variableAdjustedSum]
  | cons x xs ih =>
    intro a
    rw [List.foldl_cons, ih, variableAdjustedSum]
    by_cases hfix : x.rateType = "fixed"
    · have hcond : ¬ (x.rateType ≠ "fixed" ∧ 0 < x.amountNumber) := fun hc => hc.1 hfix
      simp only [if_pos hfix, if_neg hcond]
      ring
    · by_cases hamt : x.amountNumber ≤ 0
      · have hcond : ¬ (x.rateType ≠ "fixed" ∧ 0 < x.amountNumber) :=
          fun hc => absurd hc.2 (not_lt.mpr hamt)
        simp only [if_neg hfix, if_pos hamt, if_neg hcond]
        ring
      · simp only [if_neg hfix, if_neg hamt, if_pos (And.intro hfix (not_le.mp hamt))]
        ring

/-- C6: whenever `rateScenarioSummary` produces a result, both the
increase and the decrease leg equal the unshocked fixed-rate baseline
plus, for each variable-rate loan, `amount · max (rate ± delta) 0 / 100
/ 12`; the fixed-rate term `fixedBaselineSum` does not mention the
delta, so fixed loans contribute exactly their baseline monthly interest
under any delta. -/
theorem c6_rate_sensitivity (loans : List SanLoan) (delta : ℚ) (rt : Option Totals)
    (s : RateScenario) (h : rateScenarioSummary loans delta rt = some s) :
    s.increase.monthlyInterestTotal = fixedBaselineSum loans + variableAdjustedSum delta loans
    ∧ s.decrease.monthlyInterestTotal
        = fixedBaselineSum loans + variableAdjustedSum (-delta) loans := by
  rw [rateScenarioSummary] at h
  split at h
  · exact absurd h (by simp)
  · rw [Option.some.injEq] at h
    subst h
    constructor
    · show (manualLoanTotals loans).monthlyInterest
          - (loanTypeBreakdown loans).variableMonthlyInterest
          + computeVariableInterest loans delta = _
      rw [computeVariableInterest_eq, loanTypeBreakdown_variableMI, manualLoanTotals_eq]
      show interestSum loans - variableBaselineSum loans + variableAdjustedSum delta loans = _
      rw [interestSum_split]
      ring
    · show (manualLoanTotals loans).monthlyInterest
          - (loanTypeBreakdown loans).variableMonthlyInterest
          + computeVariableInterest loans (-delta) = _
      rw [computeVariableInterest_eq, loanTypeBreakdown_variableMI, manualLoanTotals_eq]
      show interestSum loans - variableBaselineSum loans + variableAdjustedSum (-delta) loans = _
      rw [interestSum_split]
      ring

/-- The C6 witness loans: one variable-rate loan of 1,200,000 at 3 %
and one fixed-rate loan of 1,200,000 at 2 %. -/
def c6Loans : List SanLoan :=
  [{ amountNumber := 1200000, interestNumber := 3, amortizationNumber := 2,
     rateType := "variable" },
   { amountNumber := 1200000, interestNumber := 2, amortizationNumber := 1,
     rateType := "fixed" }]

/-- Witness for C6 at delta 1: the fixed loan contributes its baseline
2000 in both legs while the variable interest moves from 3000 to 4000
(increase) and 2000 (decrease). -/
theorem c6_witness :
    ∃ s : RateScenario, rateScenarioSummary c6Loans 1 none = some s
      ∧ s.increase.monthlyInterestTotal
          = fixedBaselineSum c6Loans + variableAdjustedSum 1 c6Loans
      ∧ s.decrease.monthlyInterestTotal
          = fixedBaselineSum c6Loans + variableAdjustedSum (-1) c6Loans := by
  have hvar : ¬ ("variable" : String) = "fixed" := by decide
  have hbd : loanTypeBreakdown c6Loans = ⟨1200000, 3000, 1200000, 2000⟩ := by
    norm_num [c6Loans, loanTypeBreakdown, List.foldl, if_neg hvar, TypeBreakdown.mk.injEq]
  have hguard : ¬ ((c6Loans.isEmpty : Prop)
      ∨ (loanTypeBreakdown c6Loans).variableAmount ≤ 0) := by
    rw [hbd]
    norm_num [c6Loans, List.isEmpty]
  have hsome : ∃ s, rateScenarioSummary c6Loans 1 none = some s := by
    rw [rateScenarioSummary, if_neg hguard]
    exact ⟨_, rfl⟩
  obtain ⟨s, hs⟩ := hsome
  exact ⟨s, hs, c6_rate_sensitivity c6Loans 1 none s hs⟩

/-! ## Amortization forecast (client engine, lines 777-796) -/

/-- `amortizationPercentNumber` (lines 607-620): the principal-weighted
average amortization percent of the active loans, 0 when there are no
active loans or the total amount is 0. -/
def amortizationPercentNumber (loans : List SanLoan) : ℚ :=
  if loans.isEmpty then 0
  else
    let totalAmount := loans.foldl (fun sum l => sum + l.amountNumber) 0
    if totalAmount = 0 then 0
    else loans.foldl (fun sum l => sum + l.amountNumber * l.amortizationNumber) 0 / totalAmount

/-- One row of the loan forecast (lines 789-792). -/
structure ForecastRow where
  year : ℕ
  remaining : ℚ
deriving DecidableEq

/-- The `for` loop of `loanForecastData` (lines 786-794): each
iteration pushes `{year, max remaining 0}` and then subtracts the
constant yearly amortization from the unclamped `remaining`. -/
def forecastRowsAux (yearlyAmortization : ℚ) : ℚ → ℕ → ℕ → List ForecastRow
  | _, _, 0 => []
  | remaining, year, n + 1 =>
    ⟨year, max remaining 0⟩
      :: forecastRowsAux yearlyAmortization (remaining - yearlyAmortization) (year + 1) n

/-- `loanForecastData` (lines 777-796): empty without server totals or
when the weighted amortization percent is `≤ 0` (or non-finite, vacuous
on `ℚ`); otherwise rows for years `0 .. max 1 forecastYears` with
`yearlyAmortization = loanAmount · (percent/100)`. -/
def loanForecastData (resultTotals : Option Totals) (amortPercent : ℚ)
    (forecastYears : ℕ) : List ForecastRow :=
  match resultTotals with
  | none => []
  | some totals =>
    if amortPercent ≤ 0 then []
    else
      forecastRowsAux (totals.loanAmount * (amortPercent / 100)) totals.loanAmount 0
        (max 1 forecastYears + 1)

/-- Modelled from the spec wording of the forecast state machine:
`remaining_0 = startingPrincipal` and
`remaining_y = max (remaining_(y-1) − yearlyAmortization) 0`. -/
def specRemaining (startingPrincipal yearlyAmortization : ℚ) : ℕ → ℚ
  | 0 => startingPrincipal
  | y + 1 => max (specRemaining startingPrincipal yearlyAmortization y - yearlyAmortization) 0

lemma max_sub_collapse (x A : ℚ) (hA : 0 ≤ A) : max (max x 0 - A) 0 = max (x - A) 0 := by
  rcases le_or_lt x 0 with h | h
  · rw [max_eq_right h, max_eq_right (by linarith), max_eq_right (by linarith)]
  · rw [max_eq_left h.le]

lemma specRemaining_eq (s A : ℚ) (hs : 0 ≤ s) (hA : 0 ≤ A) :
    ∀ y : ℕ, specRemaining s A y = max (s - y * A) 0 := by
  intro y
  induction y with
  | zero => simp [specRemaining, max_eq_left hs]
  | succ n ih =>
    rw [specRemaining, ih, max_sub_collapse _ _ hA]
    congr 1
    push_cast
    ring

lemma forecastRowsAux_length (A : ℚ) :
    ∀ (n : ℕ) (r : ℚ) (year : ℕ), (forecastRowsAux A r year n).length = n := by
  intro n
  induction n with
  | zero => intro r year; rfl
  | succ m ih =>
    intro r year
    rw [forecastRowsAux, List.length_cons, ih]

lemma forecastRowsAux_nonneg (A : ℚ) :
    ∀ (n : ℕ) (r : ℚ) (year : ℕ) (row : ForecastRow),
      row ∈ forecastRowsAux A r year n → 0 ≤ row.remaining := by
  intro n
  induction n with
  | zero =>
    intro r year row hrow
    simp [forecastRowsAux] at hrow
  | succ m ih =>
    intro r year row hrow
    rw [forecastRowsAux, List.mem_cons] at hrow
    rcases hrow with h | h
    · rw [h]
      exact le_max_right _ _
    · exact ih _ _ _ h

lemma forecastRowsAux_get (A : ℚ) :
    ∀ (n : ℕ) (r : ℚ) (year i : ℕ), i < n →
      (forecastRowsAux A r year n)[i]? = some ⟨year + i, max (r - i * A) 0⟩ := by
  intro n
  induction n with
  | zero => intro r year i hi; omega
  | succ m ih =>
    intro r year i hi
    rw [forecastRowsAux]
    cases i with
    | zero => simp
    | succ j =>
      rw [List.getElem?_cons_succ, ih _ _ j (by omega)]
      congr 1
      refine congrArg₂ ForecastRow.mk (by omega) ?_
      congr 1
      push_cast
      ring

/-- C7: the forecast is empty without server totals, when the weighted
percent is `≤ 0`, and in particular for the weighted percent of an empty
active-loan list; every row's remaining is `≥ 0`; and with totals
present, percent `> 0` and a non-negative starting principal, the rows
cover years `0 .. max 1 forecastYears`, year 0 carries exactly the
starting principal, and year `y` carries the spec recurrence
`remaining_y = max (remaining_(y−1) − principal·(percent/100)) 0` — the
linear, non-compounding reduction. -/
theorem c7_amortization_forecast (resultTotals : Option Totals) (p : ℚ) (fy : ℕ) :
    loanForecastData none p fy = []
    ∧ (p ≤ 0 → loanForecastData resultTotals p fy = [])
    ∧ loanForecastData resultTotals (amortizationPercentNumber []) fy = []
    ∧ (∀ row ∈ loanForecastData resultTotals p fy, 0 ≤ row.remaining)
    ∧ (∀ totals, resultTotals = some totals → 0 < p → 0 ≤ totals.loanAmount →
        (loanForecastData resultTotals p fy).length = max 1 fy + 1
        ∧ (loanForecastData resultTotals p fy)[0]? = some ⟨0, totals.loanAmount⟩
        ∧ ∀ y, y ≤ max 1 fy →
            (loanForecastData resultTotals p fy)[y]? =
              some ⟨y, specRemaining totals.loanAmount (totals.loanAmount * (p / 100)) y⟩) := by
  have hzero : amortizationPercentNumber [] = 0 := by
    simp [amortizationPercentNumber]
  refine ⟨rfl, ?_, ?_, ?_, ?_⟩
  · intro hp
    cases resultTotals with
    | none => rfl
    | some totals => simp [loanForecastData, if_pos hp]
  · rw [hzero]
    cases resultTotals with
    | none => rfl
    | some totals => simp [loanForecastData]
  · intro row hrow
    cases resultTotals with
    | none => simp [loanForecastData] at hrow
    | some totals =>
      rw [loanForecastData] at hrow
      split at hrow
      · simp at hrow
      · exact forecastRowsAux_nonneg _ _ _ _ _ hrow
  · intro totals ht hp hL
    subst ht
    have hA : 0 ≤ totals.loanAmount * (p / 100) :=
      mul_nonneg hL (by positivity)
    rw [loanForecastData]
    rw [if_neg (not_le.mpr hp)]
    refine ⟨forecastRowsAux_length _ _ _ _, ?_, ?_⟩
    · rw [forecastRowsAux_get _ _ _ _ 0 (by omega)]
      simp [max_eq_left hL]
    · intro y hy
      rw [forecastRowsAux_get _ _ _ _ y (by omega)]
      rw [specRemaining_eq _ _ hL hA y]
      simp

/-- The C7 witness totals: principal 1,000,000 at 3 % interest and 2 %
amortization. -/
def c7Totals : Totals := ⟨1000000, 2500, 5000/3, 12500/3⟩

/-- Witness for C7: principal 1,000,000 at 2 %/yr over a 10-year
horizon leaves 800,000 remaining in the year-10 row. -/
theorem c7_witness :
    (loanForecastData (some c7Totals) 2 10)[10]? = some ⟨10, 800000⟩ := by
  have h := ((c7_amortization_forecast (some c7Totals) 2 10).2.2.2.2 c7Totals rfl
    (by norm_num) (by norm_num [c7Totals])).2.2 10 (by norm_num)
  rw [h]
  have hs := specRemaining_eq (1000000 : ℚ) (1000000 * (2 / 100) : ℚ)
    (by norm_num) (by norm_num) 10
  simp only [c7Totals] at *
  rw [hs]
  norm_num [max_eq_left]

/-! ## Savings growth projection (client engine, lines 837-850) -/

/-- `SavingsGrowthRate` (line 247): the fixed 2 % annual growth. -/
def SavingsGrowthRate : ℚ := 1/50

/-- One row of the savings forecast (lines 843-846). -/
structure SavingsRow where
  year : ℕ
  balance : ℚ
deriving DecidableEq

/-- One year of growth (line 847): deposit the full year's
contributions, then apply the growth once. -/
def growStep (yearlyContribution b : ℚ) : ℚ :=
  (b + yearlyContribution) * (1 + SavingsGrowthRate)

/-- The `for` loop of `savingsForecastData` (lines 842-848): each
iteration pushes `{year, balance}` and then deposits-and-grows. -/
def savingsForecastAux (yearlyContribution : ℚ) : ℚ → ℕ → ℕ → List SavingsRow
  | _, _, 0 => []
  | balance, year, n + 1 =>
    ⟨year, balance⟩
      :: savingsForecastAux yearlyContribution (growStep yearlyContribution balance)
          (year + 1) n

/-- `savingsForecastData` (lines 837-850): rows for years
`0 .. max 1 savingsForecastYears` starting from balance 0 with yearly
contribution `savingsMonthlyTotal · 12`. -/
def savingsForecastData (savingsMonthlyTotal : ℚ) (savingsForecastYears : ℕ) :
    List SavingsRow :=
  savingsForecastAux (savingsMonthlyTotal * 12) 0 0 (max 1 savingsForecastYears + 1)

/-- Modelled from the spec wording of the savings state machine:
`balance_0 = 0` and
`balance_y = (balance_(y-1) + contribution·12) · (1 + growthRate)`. -/
def specBalance (contribution : ℚ) : ℕ → ℚ
  | 0 => 0
  | y + 1 => (specBalance contribution y + contribution * 12) * (1 + SavingsGrowthRate)

lemma specBalance_iterate (c : ℚ) :
    ∀ y : ℕ, specBalance c y = (growStep (c * 12))^[y] 0 := by
  intro y
  induction y with
  | zero => rfl
  | succ n ih =>
    rw [specBalance, ih, Function.iterate_succ_apply]
    have hswap : ∀ m : ℕ, ∀ b : ℚ,
        (growStep (c * 12))^[m] (growStep (c * 12) b)
          = growStep (c * 12) ((growStep (c * 12))^[m] b) := by
      intro m
      induction m with
      | zero => intro b; rfl
      | succ k ihk =>
        intro b
        rw [Function.iterate_succ_apply, Function.iterate_succ_apply, ihk]
    rw [hswap]
    rfl

lemma savingsForecastAux_length (Y : ℚ) :
    ∀ (n : ℕ) (b : ℚ) (year : ℕ), (savingsForecastAux Y b year n).length = n := by
  intro n
  induction n with
  | zero => intro b year; rfl
  | succ m ih =>
    intro b year
    rw [savingsForecastAux, List.length_cons, ih]

lemma savingsForecastAux_get (Y : ℚ) :
    ∀ (n : ℕ) (b : ℚ) (year i : ℕ), i < n →
      (savingsForecastAux Y b year n)[i]? = some ⟨year + i, (growStep Y)^[i] b⟩ := by
  intro n
  induction n with
  | zero => intro b year i hi; omega
  | succ m ih =>
    intro b year i hi
    rw [savingsForecastAux]
    cases i with
    | zero => simp
    | succ j =>
      rw [List.getElem?_cons_succ, ih _ _ j (by omega)]
      rw [Function.iterate_succ_apply]
      congr 2
      omega

/-- C8: the savings projection has year-0 balance 0, rows for years
`0 .. max 1 savingsForecastYears`, year-`y` balance following the spec
recurrence `balance_y = (balance_(y−1) + contribution·12) · (1 +
growthRate)` with the growth rate fixed at `1/50 = 0.02`
(deposit-then-grow, compounding once per year); in particular monthly
contribution 1000 gives year-1 balance 12240. -/
theorem c8_savings_growth (c : ℚ) (sy : ℕ) :
    SavingsGrowthRate = 1/50
    ∧ (savingsForecastData c sy).length = max 1 sy + 1
    ∧ (savingsForecastData c sy)[0]? = some ⟨0, 0⟩
    ∧ (∀ y, y ≤ max 1 sy → (savingsForecastData c sy)[y]? = some ⟨y, specBalance c y⟩)
    ∧ (savingsForecastData 1000 1)[1]? = some ⟨1, 12240⟩ := by
  refine ⟨rfl, savingsForecastAux_length _ _ _ _, ?_, ?_, ?_⟩
  · rw [savingsForecastData, savingsForecastAux_get _ _ _ _ 0 (by omega)]
    rfl
  · intro y hy
    rw [savingsForecastData, savingsForecastAux_get _ _ _ _ y (by omega)]
    rw [specBalance_iterate]
    simp
  · rw [savingsForecastData, savingsForecastAux_get _ _ _ _ 1 (by omega)]
    norm_num [growStep, SavingsGrowthRate]

/-- Witness for C8 at monthly contribution 1000 over a one-year
horizon: the year-1 row carries the spec-recurrence balance, which is
`(0 + 12000) · 1.02 = 12240`. -/
theorem c8_witness :
    (savingsForecastData 1000 1)[1]? = some ⟨1, specBalance 1000 1⟩
    ∧ specBalance 1000 1 = 12240 :=
  ⟨(c8_savings_growth 1000 1).2.2.2.1 1 (by norm_num),
   by norm_num [specBalance, SavingsGrowthRate]⟩

/-! ## Presence of `incomeShare` and the legacy-fallback path of
`/api/calculate` -/

lemma buildPayload_incomeShare (inc : Option ℚ) (L : List ParsedLoan) :
    (buildPayload inc L).incomeShare ≠ none ↔ ∃ q, inc = some q ∧ 0 < q := by
  cases inc with
  | none => simp [buildPayload]
  | some q =>
    by_cases hq : 0 < q
    · simp [buildPayload, if_pos hq, hq]
    · simp [buildPayload, if_neg hq, hq]

/-- C9: a successful `/api/calculate` response carries the
`incomeShare` field exactly when the `income` input parses to a finite
number strictly greater than 0 (zero, negative, non-finite, empty or
missing income all leave the field absent — never 0 or NaN). -/
theorem c9_income_share_presence (req : CalcRequest) (p : CalcPayload)
    (h : apiCalculate req = Except.ok p) :
    p.incomeShare ≠ none ↔ ∃ q, parseNumber req.income = some q ∧ 0 < q := by
  rw [apiCalculate] at h
  split at h
  · exact absurd h (by simp)
  · split at h
    · cases hfb : fallbackLoanOpt req with
      | some fb =>
        rw [hfb] at h
        rw [Except.ok.injEq] at h
        subst h
        exact buildPayload_incomeShare _ _
      | none =>
        rw [hfb] at h
        exact absurd h (by simp)
    · rw [Except.ok.injEq] at h
      subst h
      exact buildPayload_incomeShare _ _

/-- The C9 witness request: income 20000 and one valid loan. -/
def reqC9 : CalcRequest :=
  { income := .num (.num 20000)
    loans := some [{ loanAmount := .num (.num 1000000)
                     annualInterestRate := .num (.num 3)
                     amortizationPercent := .undef
                     rateType := none }]
    loanAmount := .undef
    annualInterestRate := .undef
    amortizationPercent := .undef }

/-- Witness for C9: on `reqC9` the endpoint succeeds and the
`incomeShare` presence criterion holds for its payload. -/
theorem c9_witness :
    ∃ p, apiCalculate reqC9 = Except.ok p
      ∧ (p.incomeShare ≠ none ↔ ∃ q, parseNumber reqC9.income = some q ∧ 0 < q) := by
  have hok : apiCalculate reqC9 =
      Except.ok (buildPayload (some 20000) [⟨1000000, 3, 2, "variable"⟩]) := by
    norm_num [apiCalculate, reqC9, parseNumber, parseLoanEntry, fallbackLoanOpt,
      List.filterMap, List.isEmpty]
    simp
  exact ⟨_, hok, c9_income_share_presence reqC9 _ hok⟩

/-- The C10 counterexample request: an *empty* `loans` array together
with valid legacy top-level fields. -/
def reqC10empty : CalcRequest :=
  { income := .undef
    loans := some []
    loanAmount := .num (.num 1000000)
    annualInterestRate := .num (.num 3)
    amortizationPercent := .undef }

/-- C10 as stated is false: an empty `loans` array contains no valid
loan and `reqC10empty` carries a valid legacy fallback, yet the handler
answers with the 400 error of line 522 instead of the fallback
payload — the fallback is consulted only for a *non-empty* array whose
entries were all filtered out. -/
theorem c10_counterexample :
    (∃ fb, fallbackLoanOpt reqC10empty = some fb)
    ∧ apiCalculate reqC10empty
        = Except.error "Minst ett lån måste anges för att göra en kalkyl." := by
  constructor
  · refine ⟨⟨1000000, 3, 2, "variable"⟩, ?_⟩
    norm_num [fallbackLoanOpt, reqC10empty, parseNumber]
  · rfl

/-- C10 amended: when the request's `loans` array is non-empty but
contains no valid loan after filtering, `/api/calculate` falls back to
the legacy top-level fields, treated as a single variable-rate loan
with `amortizationPercent` defaulting to 2 when absent, and responds
400 only when that fallback is also invalid.  (An empty `loans` array
is instead rejected immediately, see the counterexample.) -/
theorem c10_legacy_fallback (req : CalcRequest) (l : List RawLoan)
    (hl : req.loans = some l) (hne : l ≠ [])
    (hfilter : l.filterMap parseLoanEntry = []) :
    (apiCalculate req =
      match fallbackLoanOpt req with
      | some fb => Except.ok (buildPayload (parseNumber req.income) [fb])
      | none =>
        Except.error
          "Minst ett lån måste anges med belopp, ränta och amortering för att göra en kalkyl.")
    ∧ (∀ fb, fallbackLoanOpt req = some fb → fb.rateType = "variable")
    ∧ (∀ fb, fallbackLoanOpt req = some fb → parseNumber req.amortizationPercent = none →
        fb.amortizationPercent = 2) := by
  refine ⟨?_, ?_, ?_⟩
  · have hemp : l.isEmpty = false := by
      cases l with
      | nil => exact absurd rfl hne
      | cons x xs => rfl
    rw [apiCalculate, hl]
    simp only [Option.getD_some, hemp, hfilter]
    rw [if_neg (by simp), if_pos (by simp [List.isEmpty])]
  · intro fb hfb
    rw [fallbackLoanOpt] at hfb
    cases ha : parseNumber req.loanAmount with
    | none => rw [ha] at hfb; exact absurd hfb (by simp)
    | some fa =>
      cases hi : parseNumber req.annualInterestRate with
      | none => rw [ha, hi] at hfb; exact absurd hfb (by simp)
      | some fi =>
        rw [ha, hi] at hfb
        simp only [] at hfb
        split at hfb
        · rw [Option.some.injEq] at hfb
          subst hfb
          rfl
        · exact absurd hfb (by simp)
  · intro fb hfb ham
    rw [fallbackLoanOpt] at hfb
    cases ha : parseNumber req.loanAmount with
    | none => rw [ha] at hfb; exact absurd hfb (by simp)
    | some fa =>
      cases hi : parseNumber req.annualInterestRate with
      | none => rw [ha, hi] at hfb; exact absurd hfb (by simp)
      | some fi =>
        rw [ha, hi] at hfb
        simp only [] at hfb
        split at hfb
        · rw [Option.some.injEq] at hfb
          subst hfb
          simp [ham]
        · exact absurd hfb (by simp)

/-- The C10 witness request: one invalid loan entry (negative amount,
missing rate) plus valid legacy fields 800000 at 4 %, no amortization
field. -/
def reqC10 : CalcRequest :=
  { income := .undef
    loans := some [{ loanAmount := .num (.num (-5))
                     annualInterestRate := .undef
                     amortizationPercent := .undef
                     rateType := none }]
    loanAmount := .num (.num 800000)
    annualInterestRate := .num (.num 4)
    amortizationPercent := .undef }

/-- Witness for C10 (amended): on `reqC10` the filtered list is empty
and the handler computes the payload from the legacy fallback loan
(800000, 4 %, default amortization 2, variable rate). -/
theorem c10_witness :
    apiCalculate reqC10 = Except.ok (buildPayload none [⟨800000, 4, 2, "variable"⟩]) := by
  have h := (c10_legacy_fallback reqC10 _ rfl (List.cons_ne_nil _ _) rfl).1
  rw [h]
  norm_num [fallbackLoanOpt, reqC10, parseNumber]

end BudgetApp
